import Mathlib

/-!
Shallow embedding of the BlueZ per-device state machine (`src/device.c`)
and proofs about the frozen claims on its specification.

Machine integers are modelled as `Nat`/`Int`; C truthiness of a `time_t`
field is `≠ 0`; external collaborator calls (adapter, agent, D-Bus
property emission) are modelled as emitted events.
-/

namespace BlueZ

/-- Address types: `BDADDR_BREDR`, `BDADDR_LE_PUBLIC`, `BDADDR_LE_RANDOM`. -/
inductive AddrType where
  | bredrT
  | lePublic
  | leRandom
deriving DecidableEq

/-- Per-bearer record `struct bearer_state`. -/
structure BearerState where
  paired : Bool := false
  bonded : Bool := false
  connected : Bool := false
  svcResolved : Bool := false
  initiator : Bool := false
  connectable : Bool := false
  prefer : Bool := false
  lastSeen : Int := 0
  lastUsed : Int := 0
deriving DecidableEq

/-- `struct csrk_info`: 128-bit key, 32-bit signing counter, auth flag. -/
structure CsrkInfo where
  key : List Nat := []
  counter : Nat := 0
  auth : Bool := false
deriving DecidableEq

/-- Just-works re-pairing policy `btd_opts.jw_repairing`. -/
inductive JwPolicy where
  | never
  | always
  | ask
deriving DecidableEq

/-- Per-service state (`btd_service_get_state`). -/
inductive SvcState where
  | disconnected
  | connecting
  | connected
  | disconnecting
deriving DecidableEq

/-- Preferred-bearer policy (`device->prefer_bearer`). -/
inductive PreferBearer where
  | lastUsed
  | leP
  | bredrP
  | lastSeenP
deriving DecidableEq

/-- The fields of `struct btd_device` the claims touch.  Pointer-valued
in-flight request slots (`bonding`, `connect`, `browse`, `pending`,
`authr`) are modelled by their null-ness; adapter-side facts consulted by
the code (`btd_adapter_get_bredr`, `btd_adapter_get_powered`,
`agent_get(NULL)`) are carried as fields of the device value. -/
structure Device where
  bdaddrType : AddrType
  /-- most significant address byte `bdaddr.b[5]` -/
  bdaddrMSB : Nat := 0
  bredr : Bool := false
  le : Bool := false
  bredrState : BearerState := {}
  leState : BearerState := {}
  adapterBredr : Bool := true
  adapterPowered : Bool := true
  temporary : Bool := false
  storeId : Nat := 0
  temporaryTimer : Nat := 0
  disconnTimer : Nat := 0
  svcRefreshed : Bool := false
  pendingPaired : Bool := false
  generalConnect : Bool := false
  rssi : Int := 0
  appearance : Nat := 0
  bonding : Bool := false
  bondingAgent : Bool := false
  connectMsg : Bool := false
  browse : Bool := false
  pendingList : Bool := false
  authr : Bool := false
  defaultAgent : Bool := true
  localCsrk : Option CsrkInfo := none
  remoteCsrk : Option CsrkInfo := none
  services : List SvcState := []
  eirUuids : List Nat := []
  /-- queued Disconnect replies; `true` marks a `RemoveDevice` call -/
  disconnects : List Bool := []
  autoConnect : Bool := false
  disableAutoConnect : Bool := false
  preferBearer : PreferBearer := PreferBearer.lastSeenP
  attrib : Bool := false
  /-- number of queued `svc_callbacks` waiters -/
  svcCallbacks : Nat := 0
  /-- discovered primary GATT services -/
  primaries : List Nat := []
deriving DecidableEq

/-- `get_state`: `BDADDR_BREDR` maps to the BR/EDR record, anything else
to the LE record. -/
def get_state (dev : Device) (t : AddrType) : BearerState :=
  if t = AddrType.bredrT then dev.bredrState else dev.leState

/-- `NVAL_TIME`, the `(time_t) -1` sentinel. -/
def NVAL_TIME : Int := -1

/-- `SEEN_TRESHHOLD` (300 s), spelled as in the source. -/
def SEEN_TRESHHOLD : Int := 300

/-- The inline freshness computation of `select_conn_bearer` for one
bearer: `current - last_seen` for a connectable, previously seen bearer,
clamped to `NVAL_TIME` above the threshold. -/
def bearer_last (current : Int) (st : BearerState) : Int :=
  if st.connectable = true ∧ st.lastSeen ≠ 0 then
    if current - st.lastSeen > SEEN_TRESHHOLD then NVAL_TIME
    else current - st.lastSeen
  else NVAL_TIME

/-- `select_conn_bearer`, translated clause by clause from the source. -/
def select_conn_bearer (dev : Device) (current : Int) : AddrType :=
  if dev.bredrState.prefer = true ∨
      (dev.bredrState.bonded = true ∧ dev.leState.bonded = false) then
    AddrType.bredrT
  else if dev.leState.prefer = true ∨
      (dev.bredrState.bonded = false ∧ dev.leState.bonded = true) then
    dev.bdaddrType
  else if dev.bdaddrType = AddrType.leRandom then
    dev.bdaddrType
  else
    let bredrLast := bearer_last current dev.bredrState
    let leLast := bearer_last current dev.leState
    if leLast = NVAL_TIME ∧ bredrLast = NVAL_TIME then
      dev.bdaddrType
    else if dev.bredr = true ∧ (dev.le = false ∨ leLast = NVAL_TIME) then
      AddrType.bredrT
    else if dev.le = true ∧ (dev.bredr = false ∨ bredrLast = NVAL_TIME) then
      dev.bdaddrType
    else if bredrLast ≤ leLast ∧ dev.adapterBredr = true then
      AddrType.bredrT
    else
      dev.bdaddrType

/-- Freshness of a bearer as the spec describes it: known (`some`) only
for a connectable bearer seen within the last 300 seconds. -/
def freshness (current : Int) (st : BearerState) : Option Int :=
  if st.connectable = true ∧ st.lastSeen ≠ 0 ∧
      current - st.lastSeen ≤ SEEN_TRESHHOLD then
    some (current - st.lastSeen)
  else none

/-- The connect-bearer choice as the claim C1 words it: a one-sidedly
bonded bearer is picked before any prefer flag is consulted, then a set
prefer flag, then LE-random forces LE, then smaller freshness with ties
to BR/EDR. -/
def connBearerClaimed (dev : Device) (current : Int) : AddrType :=
  if dev.bredrState.bonded = true ∧ dev.leState.bonded = false then
    AddrType.bredrT
  else if dev.bredrState.bonded = false ∧ dev.leState.bonded = true then
    dev.bdaddrType
  else if dev.bredrState.prefer = true then
    AddrType.bredrT
  else if dev.leState.prefer = true then
    dev.bdaddrType
  else if dev.bdaddrType = AddrType.leRandom then
    dev.bdaddrType
  else
    match freshness current dev.bredrState, freshness current dev.leState with
    | none, none => dev.bdaddrType
    | some _, none => AddrType.bredrT
    | none, some _ => dev.bdaddrType
    | some fb, some fl =>
        if fb ≤ fl then AddrType.bredrT else dev.bdaddrType

/-- The connect-bearer choice as amended: prefer flags and one-sided
bonding are consulted together at top priority, BR/EDR side first; then
LE-random forces LE; then freshness decides, BR/EDR winning equal or
smaller freshness only when the adapter supports BR/EDR. -/
def connBearerSpec (dev : Device) (current : Int) : AddrType :=
  if dev.bredrState.prefer = true ∨
      (dev.bredrState.bonded = true ∧ dev.leState.bonded = false) then
    AddrType.bredrT
  else if dev.leState.prefer = true ∨
      (dev.bredrState.bonded = false ∧ dev.leState.bonded = true) then
    dev.bdaddrType
  else if dev.bdaddrType = AddrType.leRandom then
    dev.bdaddrType
  else
    match freshness current dev.bredrState, freshness current dev.leState with
    | none, none => dev.bdaddrType
    | some _, none => AddrType.bredrT
    | none, some _ => dev.bdaddrType
    | some fb, some fl =>
        if fb ≤ fl ∧ dev.adapterBredr = true then AddrType.bredrT
        else dev.bdaddrType

/-- Relating the source's sentinel freshness to the spec-side optional
freshness, for a bearer last seen in the past. -/
theorem bearer_last_freshness (current : Int) (st : BearerState)
    (h : st.lastSeen ≤ current) :
    (freshness current st = none → bearer_last current st = NVAL_TIME) ∧
    (∀ d, freshness current st = some d →
      bearer_last current st = d ∧ 0 ≤ d) := by
  unfold freshness bearer_last NVAL_TIME SEEN_TRESHHOLD
  constructor
  · intro hn
    by_cases hc : st.connectable = true ∧ st.lastSeen ≠ 0
    · rcases hc with ⟨hc1, hc2⟩
      rw [if_pos ⟨hc1, hc2⟩]
      by_cases hgt : current - st.lastSeen > 300
      · rw [if_pos hgt]
      · exfalso
        rw [if_pos ⟨hc1, hc2, by omega⟩] at hn
        exact Option.some_ne_none _ hn
    · rw [if_neg (by tauto)]
  · intro d hd
    by_cases hc : st.connectable = true ∧ st.lastSeen ≠ 0 ∧
        current - st.lastSeen ≤ 300
    · rw [if_pos hc] at hd
      rcases hc with ⟨hc1, hc2, hc3⟩
      simp only [Option.some.injEq] at hd
      subst hd
      constructor
      · rw [if_pos ⟨hc1, hc2⟩, if_neg (by omega)]
      · omega
    · rw [if_neg hc] at hd
      exact absurd hd (by simp)

/-- A dual-bearer device with the BR/EDR prefer flag set while only the
LE bearer is bonded: the source picks BR/EDR (prefer), the claim's order
picks the bonded LE bearer. -/
def devC1ce : Device :=
  { bdaddrType := AddrType.lePublic
    bredr := true
    le := true
    bredrState := { prefer := true }
    leState := { bonded := true, paired := true } }

/-- C1 counterexample: on `devC1ce` the code returns BR/EDR while the
claim's ordered algorithm (one-sided bonding before prefer) returns LE,
so the claim as stated is false. -/
theorem c1_counterexample :
    select_conn_bearer devC1ce 1000 = AddrType.bredrT ∧
    connBearerClaimed devC1ce 1000 = AddrType.lePublic ∧
    select_conn_bearer devC1ce 1000 ≠ connBearerClaimed devC1ce 1000 := by
  refine ⟨by decide, by decide, by decide⟩

/-- C1 (amended): for a dual-bearer device whose last-seen stamps are in
the past, `select_conn_bearer` implements the amended ordered algorithm:
prefer flag or one-sided bonding first (BR/EDR side checked first), then
LE-random forces LE, then per-connectable-bearer freshness clamped to
unknown beyond 300 s, smaller freshness winning and ties or an equal
BR/EDR freshness going to BR/EDR only when the adapter supports BR/EDR. -/
theorem c1_select_conn_bearer_amended (dev : Device) (current : Int)
    (hB : dev.bredr = true) (hL : dev.le = true)
    (hsb : dev.bredrState.lastSeen ≤ current)
    (hsl : dev.leState.lastSeen ≤ current) :
    select_conn_bearer dev current = connBearerSpec dev current := by
  unfold select_conn_bearer connBearerSpec
  obtain ⟨h1, h2⟩ := bearer_last_freshness current dev.bredrState hsb
  obtain ⟨h3, h4⟩ := bearer_last_freshness current dev.leState hsl
  by_cases hc1 : dev.bredrState.prefer = true ∨
      (dev.bredrState.bonded = true ∧ dev.leState.bonded = false)
  · rw [if_pos hc1, if_pos hc1]
  · rw [if_neg hc1, if_neg hc1]
    by_cases hc2 : dev.leState.prefer = true ∨
        (dev.bredrState.bonded = false ∧ dev.leState.bonded = true)
    · rw [if_pos hc2, if_pos hc2]
    · rw [if_neg hc2, if_neg hc2]
      by_cases hc3 : dev.bdaddrType = AddrType.leRandom
      · rw [if_pos hc3, if_pos hc3]
      · rw [if_neg hc3, if_neg hc3]
        rcases hfb : freshness current dev.bredrState with _ | fb
        · rcases hfl : freshness current dev.leState with _ | fl
          · simp [h1 hfb, h3 hfl]
          · obtain ⟨hle, hge⟩ := h4 fl hfl
            simp [h1 hfb, hle, hB, hL, NVAL_TIME]
            omega
        · obtain ⟨hbe, hbge⟩ := h2 fb hfb
          rcases hfl : freshness current dev.leState with _ | fl
          · simp [h3 hfl, hbe, hB, hL, NVAL_TIME]
            omega
          · obtain ⟨hle, hlge⟩ := h4 fl hfl
            simp only [hbe, hle]
            rw [if_neg (by unfold NVAL_TIME; omega),
              if_neg (by simp [hL, NVAL_TIME]; omega),
              if_neg (by simp [hB, NVAL_TIME]; omega)]

/-- C1 witness: the amended theorem applied to a concrete dual-bearer
device. -/
theorem c1_witness :
    ({ bdaddrType := AddrType.lePublic, bredr := true, le := true,
       bredrState := { connectable := true, lastSeen := 400 },
       leState := { connectable := true, lastSeen := 450 } } : Device).bredr
        = true ∧
    select_conn_bearer
      { bdaddrType := AddrType.lePublic, bredr := true, le := true,
        bredrState := { connectable := true, lastSeen := 400 },
        leState := { connectable := true, lastSeen := 450 } } 500 =
    connBearerSpec
      { bdaddrType := AddrType.lePublic, bredr := true, le := true,
        bredrState := { connectable := true, lastSeen := 400 },
        leState := { connectable := true, lastSeen := 450 } } 500 :=
  ⟨rfl, c1_select_conn_bearer_amended _ 500 rfl rfl (by decide) (by decide)⟩

/-- Observable property names emitted via
`g_dbus_emit_property_changed`. -/
inductive PropName where
  | pairedP
  | connectedP
  | rssiP
  | servicesResolvedP
  | appearanceP
  | iconP
deriving DecidableEq

/-- External effects of the device code: property-changed emissions,
bearer-interface callbacks, adapter requests, agent requests, D-Bus
replies, storage writes. -/
inductive Event where
  | propChanged (p : PropName)
  /-- `btd_bearer_paired` on the BR/EDR (`true`) or LE bearer object -/
  | bearerPaired (bredrSide : Bool)
  /-- `btd_bearer_disconnected` on the BR/EDR or LE bearer object -/
  | bearerDisconnected (bredrSide : Bool)
  | removeBonding (t : AddrType)
  | storeInfoScheduled
  | disconnectedSignal
  | connectCanceledReply
  | disconnectReplySent
  | confirmReply (accept : Bool)
  | agentAuthorize
  | agentConfirm
  | browseComplete
  | svcCallbackInvoked
  | updateAllowedServices
  | resolvedDrivers
  | acceptListAdd
  | acceptListRemove
  | connectListAdd
  | connectListRemove
  | autoConnectAdd
  | autoConnectRemove
  | storeServicesEv
deriving DecidableEq

/-- `device_address_is_private`: an LE random address whose top two bits
(`bdaddr.b[5] >> 6`) designate a non-resolvable (`0b00`) or resolvable
(`0b01`) private address. -/
def device_address_is_private (dev : Device) : Bool :=
  if dev.bdaddrType ≠ AddrType.leRandom then false
  else
    match dev.bdaddrMSB >>> 6 with
    | 0 => true
    | 1 => true
    | _ => false

/-- `store_device_info`: schedules an idle-tick writeback unless one is
already pending, the device is temporary, or its address is private. -/
def store_device_info (dev : Device) : Device × List Event :=
  if dev.temporary = true ∨ dev.storeId > 0 then (dev, [])
  else if device_address_is_private dev = true then (dev, [])
  else ({ dev with storeId := 1 }, [Event.storeInfoScheduled])

/-- `local_counter`: the ATT signing callback for outbound signed
writes; hands out the current local CSRK counter and post-increments it
(32-bit wrap). -/
def local_counter (dev : Device) : Bool × Option Nat × Device × List Event :=
  match dev.localCsrk with
  | none => (false, none, dev, [])
  | some c =>
      let dev' := { dev with
        localCsrk := some { c with counter := (c.counter + 1) % 2 ^ 32 } }
      let s := store_device_info dev'
      (true, some c.counter, s.1, s.2)

/-- `remote_counter`: the ATT signing callback for inbound signed
writes; accepts a received counter only when a remote CSRK is stored and
the counter is not below the stored one. -/
def remote_counter (signCnt : Nat) (dev : Device) : Bool × Device × List Event :=
  match dev.remoteCsrk with
  | none => (false, dev, [])
  | some c =>
      if signCnt < c.counter then (false, dev, [])
      else
        let dev' := { dev with remoteCsrk := some { c with counter := signCnt } }
        let s := store_device_info dev'
        (true, s.1, s.2)

/-- Applying a sequence of received signed-write counters. -/
def remote_counter_run (cs : List Nat) (dev : Device) : Device :=
  cs.foldl (fun d c => (remote_counter c d).2.1) dev

/-- Scheduling the storage writeback does not touch the key material. -/
theorem store_device_info_remoteCsrk (d : Device) :
    (store_device_info d).1.remoteCsrk = d.remoteCsrk := by
  unfold store_device_info
  by_cases h1 : d.temporary = true ∨ d.storeId > 0
  · rw [if_pos h1]
  · rw [if_neg h1]
    by_cases h2 : device_address_is_private d = true
    · rw [if_pos h2]
    · rw [if_neg h2]

/-- One step of `remote_counter` keeps the remote CSRK key and auth flag
and raises the counter to `max` of stored and received. -/
theorem remote_counter_step (signCnt : Nat) (dev : Device) (k : CsrkInfo)
    (h : dev.remoteCsrk = some k) :
    (remote_counter signCnt dev).2.1.remoteCsrk =
      some { k with counter := max k.counter signCnt } := by
  unfold remote_counter
  rw [h]
  dsimp only
  by_cases hlt : signCnt < k.counter
  · rw [if_pos hlt]
    dsimp only
    rw [h]
    have hm : max k.counter signCnt = k.counter := by omega
    rw [hm]
  · rw [if_neg hlt]
    dsimp only
    rw [store_device_info_remoteCsrk]
    have hm : max k.counter signCnt = signCnt := by omega
    rw [hm]

/-- After any sequence of received counters, the stored remote counter
is the running maximum of the initial counter and the received ones. -/
theorem remote_counter_run_max (cs : List Nat) (dev : Device) (k : CsrkInfo)
    (h : dev.remoteCsrk = some k) :
    (remote_counter_run cs dev).remoteCsrk =
      some { k with counter := cs.foldl max k.counter } := by
  induction cs generalizing dev k with
  | nil =>
      unfold remote_counter_run
      simpa using h
  | cons c cs ih =>
      unfold remote_counter_run at ih ⊢
      simp only [List.foldl_cons]
      exact ih _ _ (remote_counter_step c dev k h)

/-- Scheduling the storage writeback does not touch the local CSRK. -/
theorem store_device_info_localCsrk (d : Device) :
    (store_device_info d).1.localCsrk = d.localCsrk := by
  unfold store_device_info
  by_cases h1 : d.temporary = true ∨ d.storeId > 0
  · rw [if_pos h1]
  · rw [if_neg h1]
    by_cases h2 : device_address_is_private d = true
    · rw [if_pos h2]
    · rw [if_neg h2]

/-- C3: a received signed-write counter at or above the stored remote
CSRK counter is accepted and becomes the stored counter; a strictly
lower one is rejected and leaves the device unchanged; over any sequence
the stored counter is the running maximum (hence the maximum over the
accepted prefix); and the local CSRK counter is handed out and
post-incremented once per outbound signed write. -/
theorem c3_csrk_counters (dev : Device) (k lk : CsrkInfo) (cs : List Nat)
    (c : Nat) (hr : dev.remoteCsrk = some k) (hl : dev.localCsrk = some lk) :
    (k.counter ≤ c → (remote_counter c dev).1 = true ∧
      (remote_counter c dev).2.1.remoteCsrk = some { k with counter := c }) ∧
    (c < k.counter → (remote_counter c dev).1 = false ∧
      (remote_counter c dev).2.1 = dev ∧ (remote_counter c dev).2.2 = []) ∧
    (remote_counter_run cs dev).remoteCsrk =
      some { k with counter := cs.foldl max k.counter } ∧
    (local_counter dev).1 = true ∧
    (local_counter dev).2.1 = some lk.counter ∧
    (local_counter dev).2.2.1.localCsrk =
      some { lk with counter := (lk.counter + 1) % 2 ^ 32 } := by
  refine ⟨?_, ?_, remote_counter_run_max cs dev k hr, ?_⟩
  · intro hge
    have hstep := remote_counter_step c dev k hr
    have hm : max k.counter c = c := by omega
    rw [hm] at hstep
    refine ⟨?_, hstep⟩
    unfold remote_counter
    rw [hr]
    dsimp only
    rw [if_neg (by omega)]
  · intro hlt
    unfold remote_counter
    rw [hr]
    dsimp only
    rw [if_pos hlt]
    exact ⟨rfl, rfl, rfl⟩
  · unfold local_counter
    rw [hl]
    dsimp only
    rw [store_device_info_localCsrk]
    exact ⟨rfl, rfl, rfl⟩

/-- Concrete device for the C3 witness: remote counter 5, local
counter 9 (scenario S6 of the spec). -/
def devC3 : Device :=
  { bdaddrType := AddrType.lePublic
    le := true
    remoteCsrk := some { counter := 5 }
    localCsrk := some { counter := 9 } }

/-- C3 witness: the theorem applied to `devC3` with the received
sequence 7 then 4 (4 rejected, stored maximum 7). -/
theorem c3_witness :
    devC3.remoteCsrk = some { counter := 5 } ∧
    (remote_counter_run [7, 4] devC3).remoteCsrk =
      some { key := [], counter := 7, auth := false } :=
  ⟨rfl, (c3_csrk_counters devC3 { counter := 5 } { counter := 9 } [7, 4] 0
      rfl rfl).2.2.1⟩

/-- `RSSI_THRESHOLD` (8 dBm). -/
def RSSI_THRESHOLD : Int := 8

/-- `device_set_rssi_with_delta`: updates the cached RSSI and emits the
property change, suppressing small deltas between non-zero values. -/
def device_set_rssi_with_delta (dev : Device) (rssi delta_threshold : Int) :
    Device × List Event :=
  if rssi = 0 ∨ dev.rssi = 0 then
    if dev.rssi = rssi then (dev, [])
    else ({ dev with rssi := rssi }, [Event.propChanged PropName.rssiP])
  else
    let delta := if dev.rssi > rssi then dev.rssi - rssi else rssi - dev.rssi
    if delta < delta_threshold then (dev, [])
    else ({ dev with rssi := rssi }, [Event.propChanged PropName.rssiP])

/-- `device_set_rssi`: the delta threshold is `RSSI_THRESHOLD`. -/
def device_set_rssi (dev : Device) (rssi : Int) : Device × List Event :=
  device_set_rssi_with_delta dev rssi RSSI_THRESHOLD

/-- C6: an RSSI update emits the property change exactly when the value
changes and, unless one side is zero, the absolute difference is at
least 8; a zero on either side emits on any change. -/
theorem c6_rssi_emission (dev : Device) (rssi : Int) :
    (device_set_rssi dev rssi).2 = [Event.propChanged PropName.rssiP] ↔
      (rssi ≠ dev.rssi ∧
        (rssi = 0 ∨ dev.rssi = 0 ∨ 8 ≤ |rssi - dev.rssi|)) := by
  unfold device_set_rssi device_set_rssi_with_delta RSSI_THRESHOLD
  have habs : |rssi - dev.rssi| =
      (if dev.rssi > rssi then dev.rssi - rssi else rssi - dev.rssi) := by
    by_cases hgt : dev.rssi > rssi
    · rw [if_pos hgt, abs_of_neg (by omega), neg_sub]
    · rw [if_neg hgt, abs_of_nonneg (by omega)]
  by_cases h0 : rssi = 0 ∨ dev.rssi = 0
  · rw [if_pos h0]
    by_cases he : dev.rssi = rssi
    · rw [if_pos he]
      constructor
      · intro h; exact absurd h (by simp)
      · rintro ⟨hne, _⟩; exact absurd he.symm hne
    · rw [if_neg he]
      exact ⟨fun _ => ⟨fun h => he h.symm, by tauto⟩, fun _ => rfl⟩
  · rw [if_neg h0]
    have hr0 : ¬ rssi = 0 := fun h => h0 (Or.inl h)
    have hd0 : ¬ dev.rssi = 0 := fun h => h0 (Or.inr h)
    dsimp only
    by_cases hd : (if dev.rssi > rssi then dev.rssi - rssi
        else rssi - dev.rssi) < 8
    · rw [if_pos hd]
      constructor
      · intro h; exact absurd h (by simp)
      · rintro ⟨hne, h8⟩
        rcases h8 with h | h | h
        · exact absurd h hr0
        · exact absurd h hd0
        · rw [habs] at h; omega
    · rw [if_neg hd]
      have hge : 8 ≤ |rssi - dev.rssi| := by rw [habs]; omega
      refine ⟨fun _ => ⟨fun heq => ?_, Or.inr (Or.inr hge)⟩, fun _ => rfl⟩
      rw [heq, sub_self, abs_zero] at hge
      omega

/-- `device_set_appearance`, with the external `gap_appearance_to_icon`
lookup (defined outside `src`) passed in as `iconOf`. -/
def device_set_appearance (iconOf : Nat → Option String) (dev : Device)
    (value : Nat) : Device × List Event :=
  if dev.appearance = value then (dev, [])
  else
    let evs := Event.propChanged PropName.appearanceP ::
      (match iconOf value with
       | some _ => [Event.propChanged PropName.iconP]
       | none => [])
    let s := store_device_info { dev with appearance := value }
    (s.1, evs ++ s.2)

/-- Modelled from the spec: the advertising/EIR merge path that feeds
`device_set_appearance` lives outside `src` (the adapter's device-found
handler); per the spec sentence "Appearance: set once, never cleared by
a zero", it forwards only non-zero appearance values. -/
def update_appearance (iconOf : Nat → Option String) (dev : Device)
    (value : Nat) : Device × List Event :=
  if value ≠ 0 then device_set_appearance iconOf dev value else (dev, [])

/-- C9: once the appearance is non-zero, an appearance update carrying
zero leaves the device untouched and emits nothing. -/
theorem c9_appearance_never_cleared (iconOf : Nat → Option String)
    (dev : Device) (_h : dev.appearance ≠ 0) :
    (update_appearance iconOf dev 0).1.appearance = dev.appearance ∧
    (update_appearance iconOf dev 0).1 = dev ∧
    (update_appearance iconOf dev 0).2 = [] := by
  unfold update_appearance
  simp

/-- C9 witness: the theorem at a concrete device with appearance
`0x3C1` (961). -/
theorem c9_witness :
    ({ bdaddrType := AddrType.lePublic, le := true,
       appearance := 961 } : Device).appearance ≠ 0 ∧
    (update_appearance (fun _ => none)
      { bdaddrType := AddrType.lePublic, le := true, appearance := 961 }
      0).1.appearance = 961 :=
  ⟨by decide,
   (c9_appearance_never_cleared (fun _ => none)
     { bdaddrType := AddrType.lePublic, le := true, appearance := 961 }
     (by decide)).1⟩

/-- `device_prefer_bearer_str`: only meaningful for dual-bearer
devices. -/
def device_prefer_bearer_str (dev : Device) : Option String :=
  if dev.bredr = false ∨ dev.le = false then none
  else some (match dev.preferBearer with
    | PreferBearer.lastUsed => "last-used"
    | PreferBearer.leP => "le"
    | PreferBearer.bredrP => "bredr"
    | PreferBearer.lastSeenP => "last-seen")

/-- `device_set_auto_connect`: maintains the adapter's auto-connect and
passive-connect lists; skipped for non-LE or privately addressed
devices, and inhibited when the preferred bearer is BR/EDR. -/
def device_set_auto_connect (dev : Device) (enable : Bool) :
    Device × List Event :=
  if dev.le = false ∨ device_address_is_private dev = true then (dev, [])
  else if dev.autoConnect = enable then (dev, [])
  else
    let dev' := { dev with autoConnect := enable }
    if enable = false then
      (dev', [Event.connectListRemove, Event.autoConnectRemove])
    else if device_prefer_bearer_str dev' = some "bredr" then (dev', [])
    else if dev'.attrib = true then (dev', [Event.autoConnectAdd])
    else (dev', [Event.autoConnectAdd, Event.connectListAdd])

/-- `clear_temporary_timer`. -/
def clear_temporary_timer (dev : Device) : Device :=
  if dev.temporaryTimer ≠ 0 then { dev with temporaryTimer := 0 } else dev

/-- `set_temporary_timer`; a live timer source id is modelled as 1. -/
def set_temporary_timer (dev : Device) (timeout : Nat) : Device :=
  let d := clear_temporary_timer dev
  if timeout = 0 then d else { d with temporaryTimer := 1 }

/-- `btd_device_set_temporary`; `tmpto` is `btd_opts.tmpto`. -/
def btd_device_set_temporary (dev : Device) (temporary : Bool)
    (tmpto : Nat) : Device × List Event :=
  if dev.temporary = temporary then (dev, [])
  else if device_address_is_private dev = true then (dev, [])
  else
    let dev' := { dev with temporary := temporary }
    if temporary = true then
      let evs1 := if dev'.bredr = true then [Event.acceptListRemove] else []
      let evs2 := [Event.connectListRemove]
      if dev'.autoConnect = true then
        let s := device_set_auto_connect
          { dev' with disableAutoConnect := true } false
        (set_temporary_timer s.1 tmpto, evs1 ++ evs2 ++ s.2)
      else (set_temporary_timer dev' tmpto, evs1 ++ evs2)
    else
      let d2 := clear_temporary_timer dev'
      let evs1 := if d2.bredr = true then [Event.acceptListAdd] else []
      let s := store_device_info d2
      let evs2 :=
        if d2.bdaddrType ≠ AddrType.bredrT ∧ d2.leState.svcResolved = true ∧
            d2.primaries ≠ [] then [Event.storeServicesEv]
        else []
      (s.1, evs1 ++ s.2 ++ evs2)

/-- C10: for a device whose current address is an LE private address,
`btd_device_set_temporary` is a no-op in both directions and
`store_device_info` never schedules a write. -/
theorem c10_private_address_immutable (dev : Device) (b : Bool)
    (tmpto : Nat) (h : device_address_is_private dev = true) :
    btd_device_set_temporary dev b tmpto = (dev, []) ∧
    store_device_info dev = (dev, []) := by
  constructor
  · unfold btd_device_set_temporary
    by_cases he : dev.temporary = b
    · rw [if_pos he]
    · rw [if_neg he, if_pos h]
  · unfold store_device_info
    by_cases h1 : dev.temporary = true ∨ dev.storeId > 0
    · rw [if_pos h1]
    · rw [if_neg h1, if_pos h]

/-- C10 witness: the theorem at a device with a resolvable private
address (LE random, top address bits `0b01`). -/
theorem c10_witness :
    device_address_is_private
      { bdaddrType := AddrType.leRandom, le := true,
        bdaddrMSB := 64 } = true ∧
    btd_device_set_temporary
      { bdaddrType := AddrType.leRandom, le := true, bdaddrMSB := 64 }
      false 45 =
      ({ bdaddrType := AddrType.leRandom, le := true, bdaddrMSB := 64 },
        []) :=
  ⟨by decide,
   (c10_private_address_immutable
     { bdaddrType := AddrType.leRandom, le := true, bdaddrMSB := 64 }
     false 45 (by decide)).1⟩

/-- Outcome of the `Pair()` D-Bus method up to handing the request to
`adapter_create_bonding` (modelled as `started`). -/
inductive PairOutcome where
  | errInProgress
  | errAlreadyExists
  | started (t : AddrType)
deriving DecidableEq

/-- Outcome of the `Connect()`/`ConnectProfile()` front end up to
launching the pending-list / browse machinery (modelled as
`proceeds`). -/
inductive ConnOutcome where
  | errInProgress
  | errNotReady
  | success
  | proceeds
deriving DecidableEq

/-- The bearer selection of `pair_device`: the combo-chip special case
first, otherwise the device address type. -/
def pair_select (dev : Device) (current : Int) : AddrType :=
  if dev.bredr = true ∧ dev.le = true then
    if dev.bredrState.bonded = true then dev.bdaddrType
    else if dev.leState.bonded = true then AddrType.bredrT
    else select_conn_bearer dev current
  else dev.bdaddrType

/-- `pair_device` (the `Pair()` method handler), translated up to the
call into `adapter_create_bonding`: clears the temporary flag, rejects
when a bonding or an in-flight Connect exists, selects the bearer,
rejects an already-bonded bearer. -/
def pair_device (dev : Device) (current : Int) (tmpto : Nat) :
    Device × List Event × PairOutcome :=
  let s := btd_device_set_temporary dev false tmpto
  let d := s.1
  if d.bonding = true ∨ d.connectMsg = true then
    (d, s.2, PairOutcome.errInProgress)
  else
    let t := pair_select d current
    if (get_state d t).bonded = true then
      (d, s.2, PairOutcome.errAlreadyExists)
    else (d, s.2, PairOutcome.started t)

/-- The front of `connect_profiles` (common to `Connect()` on the
BR/EDR path and to `ConnectProfile()`): the serialization guard and the
powered check, everything later abstracted as `proceeds`. -/
def connect_profiles_entry (dev : Device) : ConnOutcome :=
  if dev.pendingList = true ∨ dev.connectMsg = true ∨ dev.browse = true then
    ConnOutcome.errInProgress
  else if dev.adapterPowered = false then ConnOutcome.errNotReady
  else ConnOutcome.proceeds

/-- `dev_connect` (the `Connect()` method handler) up to the bearer
dispatch. -/
def dev_connect (dev : Device) (current : Int) : ConnOutcome :=
  if dev.bonding = true then ConnOutcome.errInProgress
  else
    let t :=
      if dev.bredrState.connected = true then
        if dev.bredrState.svcResolved = true ∧
            dev.services.contains SvcState.connected = true then
          dev.bdaddrType
        else AddrType.bredrT
      else if dev.leState.connected = true ∧ dev.bredr = true then
        AddrType.bredrT
      else select_conn_bearer dev current
    if t ≠ AddrType.bredrT then
      if dev.connectMsg = true then ConnOutcome.errInProgress
      else if dev.leState.connected = true then ConnOutcome.success
      else ConnOutcome.proceeds
    else connect_profiles_entry dev

/-- `store_device_info` only touches the store bookkeeping. -/
theorem store_device_info_shape (d : Device) :
    ∃ sid, (store_device_info d).1 = { d with storeId := sid } := by
  unfold store_device_info
  by_cases h1 : d.temporary = true ∨ d.storeId > 0
  · rw [if_pos h1]; exact ⟨d.storeId, rfl⟩
  · rw [if_neg h1]
    by_cases h2 : device_address_is_private d = true
    · rw [if_pos h2]; exact ⟨d.storeId, rfl⟩
    · rw [if_neg h2]; exact ⟨1, rfl⟩

/-- `device_set_auto_connect` only touches the auto-connect flag. -/
theorem device_set_auto_connect_shape (d : Device) (e : Bool) :
    ∃ ac, (device_set_auto_connect d e).1 = { d with autoConnect := ac } := by
  unfold device_set_auto_connect
  by_cases h1 : d.le = false ∨ device_address_is_private d = true
  · rw [if_pos h1]; exact ⟨d.autoConnect, rfl⟩
  · rw [if_neg h1]
    by_cases h2 : d.autoConnect = e
    · rw [if_pos h2]; exact ⟨d.autoConnect, rfl⟩
    · rw [if_neg h2]
      dsimp only
      by_cases h3 : e = false
      · rw [if_pos h3]; exact ⟨e, rfl⟩
      · rw [if_neg h3]
        by_cases h4 : device_prefer_bearer_str
            { d with autoConnect := e } = some "bredr"
        · rw [if_pos h4]; exact ⟨e, rfl⟩
        · rw [if_neg h4]
          by_cases h5 : d.attrib = true
          · rw [if_pos h5]; exact ⟨e, rfl⟩
          · rw [if_neg h5]; exact ⟨e, rfl⟩

/-- `clear_temporary_timer` only touches the timer. -/
theorem clear_temporary_timer_shape (d : Device) :
    ∃ t, clear_temporary_timer d = { d with temporaryTimer := t } := by
  unfold clear_temporary_timer
  by_cases h : d.temporaryTimer ≠ 0
  · rw [if_pos h]; exact ⟨0, rfl⟩
  · rw [if_neg h]; exact ⟨d.temporaryTimer, rfl⟩

/-- `set_temporary_timer` only touches the timer. -/
theorem set_temporary_timer_shape (d : Device) (n : Nat) :
    ∃ t, set_temporary_timer d n = { d with temporaryTimer := t } := by
  unfold set_temporary_timer
  obtain ⟨t0, h0⟩ := clear_temporary_timer_shape d
  dsimp only
  rw [h0]
  by_cases h : n = 0
  · rw [if_pos h]; exact ⟨t0, rfl⟩
  · rw [if_neg h]; exact ⟨1, rfl⟩

/-- Clearing or setting the temporary flag touches only the temporary
flag itself and the store, timer and auto-connect bookkeeping: every
field consulted by the pairing and connection guards survives. -/
theorem set_temporary_shape (dev : Device) (b : Bool) (tmpto : Nat) :
    ∃ tmp sid ttm ac dac,
      (btd_device_set_temporary dev b tmpto).1 =
        { dev with temporary := tmp, storeId := sid, temporaryTimer := ttm,
                   autoConnect := ac, disableAutoConnect := dac } := by
  unfold btd_device_set_temporary
  by_cases h1 : dev.temporary = b
  · rw [if_pos h1]
    exact ⟨dev.temporary, dev.storeId, dev.temporaryTimer, dev.autoConnect,
      dev.disableAutoConnect, rfl⟩
  · rw [if_neg h1]
    by_cases h2 : device_address_is_private dev = true
    · rw [if_pos h2]
      exact ⟨dev.temporary, dev.storeId, dev.temporaryTimer, dev.autoConnect,
        dev.disableAutoConnect, rfl⟩
    · rw [if_neg h2]
      dsimp only
      by_cases h3 : b = true
      · rw [if_pos h3]
        by_cases h4 : dev.autoConnect = true
        · rw [if_pos h4]
          obtain ⟨ac, hac⟩ := device_set_auto_connect_shape
            { dev with temporary := b, disableAutoConnect := true } false
          rw [hac]
          obtain ⟨tt, htt⟩ := set_temporary_timer_shape
            { dev with temporary := b, disableAutoConnect := true, autoConnect := ac } tmpto
          rw [htt]
          exact ⟨b, dev.storeId, tt, ac, true, rfl⟩
        · rw [if_neg h4]
          obtain ⟨tt, htt⟩ := set_temporary_timer_shape
            { dev with temporary := b } tmpto
          rw [htt]
          exact ⟨b, dev.storeId, tt, dev.autoConnect,
            dev.disableAutoConnect, rfl⟩
      · rw [if_neg h3]
        obtain ⟨t0, h0⟩ := clear_temporary_timer_shape
          { dev with temporary := b }
        rw [h0]
        obtain ⟨sid, hs⟩ := store_device_info_shape
          { dev with temporary := b, temporaryTimer := t0 }
        rw [hs]
        exact ⟨b, sid, t0, dev.autoConnect, dev.disableAutoConnect, rfl⟩

/-- `select_conn_bearer` depends only on the listed fields. -/
theorem select_conn_bearer_congr (d1 d2 : Device) (c : Int)
    (h1 : d1.bredrState = d2.bredrState) (h2 : d1.leState = d2.leState)
    (h3 : d1.bdaddrType = d2.bdaddrType) (h4 : d1.bredr = d2.bredr)
    (h5 : d1.le = d2.le) (h6 : d1.adapterBredr = d2.adapterBredr) :
    select_conn_bearer d1 c = select_conn_bearer d2 c := by
  unfold select_conn_bearer bearer_last
  rw [h1, h2, h3, h4, h5, h6]

/-- `pair_select` depends only on the listed fields. -/
theorem pair_select_congr (d1 d2 : Device) (c : Int)
    (h1 : d1.bredrState = d2.bredrState) (h2 : d1.leState = d2.leState)
    (h3 : d1.bdaddrType = d2.bdaddrType) (h4 : d1.bredr = d2.bredr)
    (h5 : d1.le = d2.le) (h6 : d1.adapterBredr = d2.adapterBredr) :
    pair_select d1 c = pair_select d2 c := by
  unfold pair_select
  rw [select_conn_bearer_congr d1 d2 c h1 h2 h3 h4 h5 h6,
    h1, h2, h3, h4, h5]

/-- `get_state` depends only on the two bearer records. -/
theorem get_state_congr (d1 d2 : Device) (t : AddrType)
    (h1 : d1.bredrState = d2.bredrState) (h2 : d1.leState = d2.leState) :
    get_state d1 t = get_state d2 t := by
  unfold get_state
  rw [h1, h2]

/-- A BR/EDR-only device with a browse in flight and neither bonding
nor Connect request pending. -/
def devC2 : Device :=
  { bdaddrType := AddrType.bredrT
    bredr := true
    browse := true }

/-- C2 counterexample: on `devC2` a browse is outstanding, yet `Pair()`
does not fail with InProgress: `pair_device` proceeds to create the
bonding, because its guard checks only the bonding and Connect slots. -/
theorem c2_counterexample :
    devC2.browse = true ∧ devC2.bonding = false ∧
    devC2.connectMsg = false ∧
    (pair_device devC2 0 0).2.2 = PairOutcome.started AddrType.bredrT := by
  exact ⟨rfl, rfl, rfl, by decide⟩

/-- C2 (amended): the serialization guards as the code has them.
`Pair()` fails with InProgress exactly when a bonding or an in-flight
Connect exists (a browse alone does not block it); the common
`connect_profiles` front shared by `Connect()` (BR/EDR path) and
`ConnectProfile()` fails with InProgress exactly when a pending service
queue, an in-flight Connect or a browse exists (a bonding alone does
not block `ConnectProfile()`); and `Connect()` itself additionally
rejects while a bonding is active. -/
theorem c2_in_progress_guards (dev : Device) (current : Int) (tmpto : Nat) :
    ((pair_device dev current tmpto).2.2 = PairOutcome.errInProgress ↔
      dev.bonding = true ∨ dev.connectMsg = true) ∧
    (connect_profiles_entry dev = ConnOutcome.errInProgress ↔
      dev.pendingList = true ∨ dev.connectMsg = true ∨ dev.browse = true) ∧
    (dev.bonding = true → dev_connect dev current = ConnOutcome.errInProgress) := by
  refine ⟨?_, ?_, ?_⟩
  · unfold pair_device
    obtain ⟨tmp, sid, ttm, ac, dac, hsh⟩ := set_temporary_shape dev false tmpto
    have e1 : (btd_device_set_temporary dev false tmpto).1.bredrState =
        dev.bredrState := by rw [hsh]
    have e2 : (btd_device_set_temporary dev false tmpto).1.leState =
        dev.leState := by rw [hsh]
    have e3 : (btd_device_set_temporary dev false tmpto).1.bdaddrType =
        dev.bdaddrType := by rw [hsh]
    have e4 : (btd_device_set_temporary dev false tmpto).1.bredr =
        dev.bredr := by rw [hsh]
    have e5 : (btd_device_set_temporary dev false tmpto).1.le =
        dev.le := by rw [hsh]
    have e6 : (btd_device_set_temporary dev false tmpto).1.adapterBredr =
        dev.adapterBredr := by rw [hsh]
    have e7 : (btd_device_set_temporary dev false tmpto).1.bonding =
        dev.bonding := by rw [hsh]
    have e8 : (btd_device_set_temporary dev false tmpto).1.connectMsg =
        dev.connectMsg := by rw [hsh]
    dsimp only
    rw [pair_select_congr ((btd_device_set_temporary dev false tmpto).1)
        dev current e1 e2 e3 e4 e5 e6,
      get_state_congr ((btd_device_set_temporary dev false tmpto).1)
        dev _ e1 e2, e7, e8]
    by_cases hg : dev.bonding = true ∨ dev.connectMsg = true
    · rw [if_pos hg]
      simpa using hg
    · rw [if_neg hg]
      by_cases hb : (get_state dev (pair_select dev current)).bonded = true
      · rw [if_pos hb]
        simpa using hg
      · rw [if_neg hb]
        simpa using hg
  · unfold connect_profiles_entry
    by_cases hg : dev.pendingList = true ∨ dev.connectMsg = true ∨
        dev.browse = true
    · rw [if_pos hg]
      simpa using hg
    · rw [if_neg hg]
      by_cases hp : dev.adapterPowered = false
      · rw [if_pos hp]
        simpa using hg
      · rw [if_neg hp]
        simpa using hg
  · intro h
    unfold dev_connect
    rw [if_pos h]

/-- C2 witness: the amended theorem at a device with an active
bonding: both `Pair()` and `Connect()` report InProgress. -/
theorem c2_witness :
    ({ bdaddrType := AddrType.bredrT, bredr := true,
       bonding := true } : Device).bonding = true ∧
    dev_connect
      { bdaddrType := AddrType.bredrT, bredr := true, bonding := true }
      0 = ConnOutcome.errInProgress :=
  ⟨rfl,
   (c2_in_progress_guards
     { bdaddrType := AddrType.bredrT, bredr := true, bonding := true }
     0 0).2.2 rfl⟩

/-- C7: the bearer selection of `Pair()`. With the address-type
invariant (a device with an LE bearer carries an LE address type, a
BR/EDR-only device the BR/EDR one) and no bonding/Connect in flight:
a single-bearer device pairs on its own bearer; a dual-bearer device
with exactly one bonded bearer pairs on the other one; a dual-bearer
device with neither bonded defers to the connect-selection algorithm;
and a finally selected bearer that is already bonded makes `Pair()`
fail with AlreadyExists. -/
theorem c7_pair_bearer_selection (dev : Device) (current : Int) (tmpto : Nat)
    (hinv1 : dev.le = true → dev.bdaddrType ≠ AddrType.bredrT)
    (hinv2 : dev.le = false → dev.bdaddrType = AddrType.bredrT)
    (hg1 : dev.bonding = false) (hg2 : dev.connectMsg = false) :
    (dev.bredr = true ∧ dev.le = false →
      pair_select dev current = AddrType.bredrT) ∧
    (dev.bredr = false ∧ dev.le = true →
      pair_select dev current = dev.bdaddrType ∧
        dev.bdaddrType ≠ AddrType.bredrT) ∧
    (dev.bredr = true ∧ dev.le = true ∧ dev.bredrState.bonded = true ∧
      dev.leState.bonded = false →
      pair_select dev current = dev.bdaddrType ∧
        dev.bdaddrType ≠ AddrType.bredrT) ∧
    (dev.bredr = true ∧ dev.le = true ∧ dev.bredrState.bonded = false ∧
      dev.leState.bonded = true →
      pair_select dev current = AddrType.bredrT) ∧
    (dev.bredr = true ∧ dev.le = true ∧ dev.bredrState.bonded = false ∧
      dev.leState.bonded = false →
      pair_select dev current = select_conn_bearer dev current) ∧
    ((get_state dev (pair_select dev current)).bonded = true →
      (pair_device dev current tmpto).2.2 = PairOutcome.errAlreadyExists) := by
  refine ⟨?_, ?_, ?_, ?_, ?_, ?_⟩
  · rintro ⟨hb, hl⟩
    have hcond : ¬(dev.bredr = true ∧ dev.le = true) := by
      rw [hl]; simp
    unfold pair_select
    rw [if_neg hcond]
    exact hinv2 hl
  · rintro ⟨hb, hl⟩
    have hcond : ¬(dev.bredr = true ∧ dev.le = true) := by
      rw [hb]; simp
    unfold pair_select
    rw [if_neg hcond]
    exact ⟨rfl, hinv1 hl⟩
  · rintro ⟨hb, hl, hbb, hlb⟩
    unfold pair_select
    rw [if_pos ⟨hb, hl⟩, if_pos hbb]
    exact ⟨rfl, hinv1 hl⟩
  · rintro ⟨hb, hl, hbb, hlb⟩
    have hnb : ¬(dev.bredrState.bonded = true) := by rw [hbb]; simp
    unfold pair_select
    rw [if_pos ⟨hb, hl⟩, if_neg hnb, if_pos hlb]
  · rintro ⟨hb, hl, hbb, hlb⟩
    have hnb : ¬(dev.bredrState.bonded = true) := by rw [hbb]; simp
    have hnl : ¬(dev.leState.bonded = true) := by rw [hlb]; simp
    unfold pair_select
    rw [if_pos ⟨hb, hl⟩, if_neg hnb, if_neg hnl]
  · intro hbonded
    unfold pair_device
    obtain ⟨tmp, sid, ttm, ac, dac, hsh⟩ := set_temporary_shape dev false tmpto
    have e1 : (btd_device_set_temporary dev false tmpto).1.bredrState =
        dev.bredrState := by rw [hsh]
    have e2 : (btd_device_set_temporary dev false tmpto).1.leState =
        dev.leState := by rw [hsh]
    have e3 : (btd_device_set_temporary dev false tmpto).1.bdaddrType =
        dev.bdaddrType := by rw [hsh]
    have e4 : (btd_device_set_temporary dev false tmpto).1.bredr =
        dev.bredr := by rw [hsh]
    have e5 : (btd_device_set_temporary dev false tmpto).1.le =
        dev.le := by rw [hsh]
    have e6 : (btd_device_set_temporary dev false tmpto).1.adapterBredr =
        dev.adapterBredr := by rw [hsh]
    have e7 : (btd_device_set_temporary dev false tmpto).1.bonding =
        dev.bonding := by rw [hsh]
    have e8 : (btd_device_set_temporary dev false tmpto).1.connectMsg =
        dev.connectMsg := by rw [hsh]
    dsimp only
    rw [pair_select_congr ((btd_device_set_temporary dev false tmpto).1)
        dev current e1 e2 e3 e4 e5 e6,
      get_state_congr ((btd_device_set_temporary dev false tmpto).1)
        dev _ e1 e2, e7, e8]
    rw [if_neg (by rw [hg1, hg2]; simp), if_pos hbonded]

/-- C7 witness: a dual-bearer device bonded only on LE pairs on
BR/EDR. -/
theorem c7_witness :
    ({ bdaddrType := AddrType.lePublic, bredr := true, le := true,
       leState := { bonded := true, paired := true } } : Device).bonding
        = false ∧
    pair_select
      { bdaddrType := AddrType.lePublic, bredr := true, le := true,
        leState := { bonded := true, paired := true } } 0 =
      AddrType.bredrT :=
  ⟨rfl,
   (c7_pair_bearer_selection
     { bdaddrType := AddrType.lePublic, bredr := true, le := true,
       leState := { bonded := true, paired := true } }
     0 0 (by decide) (by decide) rfl rfl).2.2.2.1
     ⟨rfl, rfl, rfl, rfl⟩⟩

/-- `get_state` at `BDADDR_BREDR`. -/
theorem get_state_bredr (d : Device) :
    get_state d AddrType.bredrT = d.bredrState := by
  unfold get_state
  rw [if_pos rfl]

/-- `get_state` at an LE address type. -/
theorem get_state_le (d : Device) (t : AddrType)
    (h : t ≠ AddrType.bredrT) : get_state d t = d.leState := by
  unfold get_state
  rw [if_neg h]

/-- `device_set_svc_refreshed`: tracks the ServicesResolved
observable. -/
def device_set_svc_refreshed (dev : Device) (value : Bool) :
    Device × List Event :=
  if dev.svcRefreshed = value then (dev, [])
  else ({ dev with svcRefreshed := value },
    [Event.propChanged PropName.servicesResolvedP])

/-- `device_update_last_seen`: stamps the bearer and, on a temporary
device, restarts the temporary timer. -/
def device_update_last_seen (dev : Device) (t : AddrType)
    (connectable : Bool) (current : Int) (tmpto : Nat) : Device :=
  let d :=
    if t = AddrType.bredrT then
      { dev with bredrState :=
        { dev.bredrState with lastSeen := current, connectable := connectable } }
    else
      { dev with leState :=
        { dev.leState with lastSeen := current, connectable := connectable } }
  if d.temporary = true then set_temporary_timer d tmpto else d

/-- First block of `device_remove_connection`: mark the bearer
disconnected, drop svc-refreshed, cancel the disconnect timer, fail a
waiting `Connect()` reply, notify the bearer interface. -/
def drc_begin (dev : Device) (t : AddrType) : Device × List Event :=
  let d1 :=
    if t = AddrType.bredrT then
      { dev with
        bredrState := { dev.bredrState with connected := false, initiator := false },
        generalConnect := false }
    else
      { dev with
        leState := { dev.leState with connected := false, initiator := false },
        generalConnect := false }
  let r1 := device_set_svc_refreshed d1 false
  let d2 := r1.1
  let d3 := if d2.disconnTimer > 0 then { d2 with disconnTimer := 0 } else d2
  let r2 :=
    if d3.connectMsg = true then
      ({ d3 with connectMsg := false }, [Event.connectCanceledReply])
    else (d3, [])
  (r2.1, r1.2 ++ r2.2 ++ [Event.bearerDisconnected (t = AddrType.bredrT)])

/-- Second block of `device_remove_connection`: both bearers are
re-checked for paired-but-not-bonded, bonding material is removed and
the paired flag dropped there, and the Paired property change is
reported only when afterwards both bearers are unpaired and something
was updated. -/
def drc_paired_check (dev : Device) : Device × List Event × Bool :=
  let r1 :=
    if dev.bredrState.connected = false ∧ dev.bredrState.paired = true ∧
        dev.bredrState.bonded = false then
      ({ dev with bredrState := { dev.bredrState with paired := false } },
       [Event.removeBonding AddrType.bredrT, Event.bearerPaired true], true)
    else (dev, [], false)
  let d1 := r1.1
  let r2 :=
    if d1.leState.connected = false ∧ d1.leState.paired = true ∧
        d1.leState.bonded = false then
      ({ d1 with leState := { d1.leState with paired := false } },
       [Event.removeBonding d1.bdaddrType, Event.bearerPaired false], true)
    else (d1, [], false)
  let d2 := r2.1
  let evE :=
    if d2.bredrState.paired = false ∧ d2.leState.paired = false ∧
        (r1.2.2 = true ∨ r2.2.2 = true) then
      [Event.propChanged PropName.pairedP]
    else []
  (d2, r1.2.1 ++ r2.2.1 ++ evE, r1.2.2 || r2.2.2)

/-- Last block of `device_remove_connection`: nothing more when the
other bearer is still up; otherwise stamp last-seen, drop the EIR
UUIDs, emit the Disconnected signal and the Connected change, and
answer the queued Disconnect replies (reporting removal when one was a
`RemoveDevice`). -/
def drc_finish (dev : Device) (t : AddrType) (current : Int) (tmpto : Nat) :
    Device × List Event × Bool :=
  if dev.bredrState.connected = true ∨ dev.leState.connected = true then
    (dev, [], false)
  else
    let d1 := device_update_last_seen dev t true current tmpto
    let d2 := { d1 with eirUuids := [] }
    let evs := [Event.disconnectedSignal,
        Event.propChanged PropName.connectedP] ++
      d2.disconnects.map (fun _ => Event.disconnectReplySent)
    ({ d2 with disconnects := [] }, evs, d2.disconnects.contains true)

/-- `device_remove_connection`, the three blocks composed behind the
initial connected check. -/
def device_remove_connection (dev : Device) (t : AddrType) (current : Int)
    (tmpto : Nat) : Device × List Event × Bool :=
  if (get_state dev t).connected = false then (dev, [], false)
  else
    let b := drc_begin dev t
    let p := drc_paired_check b.1
    let f := drc_finish p.1 t current tmpto
    (f.1, b.2 ++ p.2.1 ++ f.2.1, f.2.2)

/-- The first block does not touch the paired flags. -/
theorem drc_begin_bredr_paired (dev : Device) (t : AddrType) :
    (drc_begin dev t).1.bredrState.paired = dev.bredrState.paired := by
  unfold drc_begin device_set_svc_refreshed
  dsimp only
  split_ifs <;> rfl

/-- The first block does not touch the bonded flags. -/
theorem drc_begin_bredr_bonded (dev : Device) (t : AddrType) :
    (drc_begin dev t).1.bredrState.bonded = dev.bredrState.bonded := by
  unfold drc_begin device_set_svc_refreshed
  dsimp only
  split_ifs <;> rfl

/-- The first block does not touch the LE paired flag. -/
theorem drc_begin_le_paired (dev : Device) (t : AddrType) :
    (drc_begin dev t).1.leState.paired = dev.leState.paired := by
  unfold drc_begin device_set_svc_refreshed
  dsimp only
  split_ifs <;> rfl

/-- The first block does not touch the LE bonded flag. -/
theorem drc_begin_le_bonded (dev : Device) (t : AddrType) :
    (drc_begin dev t).1.leState.bonded = dev.leState.bonded := by
  unfold drc_begin device_set_svc_refreshed
  dsimp only
  split_ifs <;> rfl

/-- The first block leaves the disconnecting bearer marked
disconnected. -/
theorem drc_begin_disconnected (dev : Device) (t : AddrType) :
    (get_state (drc_begin dev t).1 t).connected = false := by
  unfold drc_begin device_set_svc_refreshed get_state
  dsimp only
  split_ifs <;> simp_all

/-- The first block keeps the address type. -/
theorem drc_begin_bdaddrType (dev : Device) (t : AddrType) :
    (drc_begin dev t).1.bdaddrType = dev.bdaddrType := by
  unfold drc_begin device_set_svc_refreshed
  dsimp only
  split_ifs <;> rfl

/-- The first block emits only the ServicesResolved change, the Connect
cancellation reply and the bearer-disconnected callback. -/
theorem drc_begin_events (dev : Device) (t : AddrType) :
    ∀ e ∈ (drc_begin dev t).2,
      e = Event.propChanged PropName.servicesResolvedP ∨
      e = Event.connectCanceledReply ∨
      e = Event.bearerDisconnected (t = AddrType.bredrT) := by
  unfold drc_begin device_set_svc_refreshed
  dsimp only
  split_ifs <;> intro e he <;> simp at he <;> tauto

/-- When the BR/EDR bearer is left disconnected, paired and unbonded,
the second block clears its paired flag and removes its bonding. -/
theorem drc_paired_check_bredr (dev : Device)
    (h : dev.bredrState.connected = false ∧ dev.bredrState.paired = true ∧
      dev.bredrState.bonded = false) :
    (drc_paired_check dev).1.bredrState.paired = false ∧
    Event.removeBonding AddrType.bredrT ∈ (drc_paired_check dev).2.1 := by
  unfold drc_paired_check
  rw [if_pos h]
  dsimp only
  by_cases h2 : dev.leState.connected = false ∧ dev.leState.paired = true ∧
      dev.leState.bonded = false
  · rw [if_pos h2]
    dsimp only
    split_ifs <;> exact ⟨rfl, by simp⟩
  · rw [if_neg h2]
    dsimp only
    split_ifs <;> exact ⟨rfl, by simp⟩

/-- When the LE bearer is left disconnected, paired and unbonded, the
second block clears its paired flag and removes its bonding (at the
device's address type). -/
theorem drc_paired_check_le (dev : Device)
    (h : dev.leState.connected = false ∧ dev.leState.paired = true ∧
      dev.leState.bonded = false) :
    (drc_paired_check dev).1.leState.paired = false ∧
    Event.removeBonding dev.bdaddrType ∈ (drc_paired_check dev).2.1 := by
  unfold drc_paired_check
  by_cases h1 : dev.bredrState.connected = false ∧
      dev.bredrState.paired = true ∧ dev.bredrState.bonded = false
  · rw [if_pos h1]
    dsimp only
    rw [if_pos h]
    dsimp only
    split_ifs <;> exact ⟨rfl, by simp⟩
  · rw [if_neg h1]
    dsimp only
    rw [if_pos h]
    dsimp only
    split_ifs <;> exact ⟨rfl, by simp⟩

/-- The Paired property change leaves the second block only when both
bearers end up unpaired. -/
theorem drc_paired_check_emission (dev : Device) :
    Event.propChanged PropName.pairedP ∈ (drc_paired_check dev).2.1 →
    (drc_paired_check dev).1.bredrState.paired = false ∧
    (drc_paired_check dev).1.leState.paired = false := by
  unfold drc_paired_check
  by_cases h1 : dev.bredrState.connected = false ∧
      dev.bredrState.paired = true ∧ dev.bredrState.bonded = false
  all_goals
    first
      | rw [if_pos h1]
      | rw [if_neg h1]
  all_goals dsimp only
  all_goals
    by_cases h2 : dev.leState.connected = false ∧ dev.leState.paired = true ∧
      dev.leState.bonded = false
  all_goals
    first
      | rw [if_pos h2]
      | rw [if_neg h2]
  all_goals dsimp only
  all_goals split_ifs with h3
  all_goals intro hmem
  all_goals simp at hmem
  all_goals try exact ⟨h3.1, h3.2.1⟩
  all_goals tauto

/-- The last block does not touch the paired flags. -/
theorem drc_finish_bredr_paired (dev : Device) (t : AddrType)
    (current : Int) (tmpto : Nat) :
    (drc_finish dev t current tmpto).1.bredrState.paired =
      dev.bredrState.paired := by
  unfold drc_finish device_update_last_seen set_temporary_timer
    clear_temporary_timer
  dsimp only
  split_ifs <;> rfl

/-- The last block does not touch the LE paired flag. -/
theorem drc_finish_le_paired (dev : Device) (t : AddrType)
    (current : Int) (tmpto : Nat) :
    (drc_finish dev t current tmpto).1.leState.paired =
      dev.leState.paired := by
  unfold drc_finish device_update_last_seen set_temporary_timer
    clear_temporary_timer
  dsimp only
  split_ifs <;> rfl

/-- The last block emits only the Disconnected signal, the Connected
change and the queued Disconnect replies. -/
theorem drc_finish_events (dev : Device) (t : AddrType)
    (current : Int) (tmpto : Nat) :
    ∀ e ∈ (drc_finish dev t current tmpto).2.1,
      e = Event.disconnectedSignal ∨
      e = Event.propChanged PropName.connectedP ∨
      e = Event.disconnectReplySent := by
  unfold drc_finish
  split_ifs
  · intro e he
    simp at he
  · intro e he
    dsimp only at he
    simp only [List.mem_append, List.mem_map, List.mem_cons,
      List.mem_singleton, List.not_mem_nil] at he
    rcases he with (h | h | h) | ⟨a, _, h⟩
    · exact Or.inl h
    · exact Or.inr (Or.inl h)
    · exact absurd h (by simp)
    · exact Or.inr (Or.inr h.symm)

/-- C4: a connected-to-disconnected transition on a bearer that is
paired but not bonded clears that bearer's paired flag, removes its
stored bonding material, and emits the Paired property change only if
afterwards both bearers are unpaired. -/
theorem c4_disconnect_unpairs (dev : Device) (t : AddrType) (current : Int)
    (tmpto : Nat)
    (hc : (get_state dev t).connected = true)
    (hp : (get_state dev t).paired = true)
    (hb : (get_state dev t).bonded = false) :
    (get_state (device_remove_connection dev t current tmpto).1 t).paired
      = false ∧
    Event.removeBonding
        (if t = AddrType.bredrT then AddrType.bredrT else dev.bdaddrType)
      ∈ (device_remove_connection dev t current tmpto).2.1 ∧
    (Event.propChanged PropName.pairedP
        ∈ (device_remove_connection dev t current tmpto).2.1 →
      (device_remove_connection dev t current tmpto).1.bredrState.paired
        = false ∧
      (device_remove_connection dev t current tmpto).1.leState.paired
        = false) := by
  unfold device_remove_connection
  rw [if_neg (by rw [hc]; simp)]
  dsimp only
  by_cases ht : t = AddrType.bredrT
  · subst ht
    rw [get_state_bredr] at hc hp hb
    have hb1 : (drc_begin dev AddrType.bredrT).1.bredrState.connected
        = false := by
      have h := drc_begin_disconnected dev AddrType.bredrT
      rwa [get_state_bredr] at h
    have hb2 := drc_begin_bredr_paired dev AddrType.bredrT
    have hb3 := drc_begin_bredr_bonded dev AddrType.bredrT
    have hcheck := drc_paired_check_bredr (drc_begin dev AddrType.bredrT).1
      ⟨hb1, by rw [hb2]; exact hp, by rw [hb3]; exact hb⟩
    refine ⟨?_, ?_, ?_⟩
    · rw [get_state_bredr, drc_finish_bredr_paired]
      exact hcheck.1
    · rw [if_pos rfl]
      simp only [List.mem_append]
      exact Or.inl (Or.inr hcheck.2)
    · intro hmem
      simp only [List.mem_append] at hmem
      rcases hmem with (hm | hm) | hm
      · rcases drc_begin_events dev _ _ hm with h | h | h <;> simp at h
      · have hem := drc_paired_check_emission _ hm
        rw [drc_finish_bredr_paired, drc_finish_le_paired]
        exact hem
      · rcases drc_finish_events _ _ _ _ _ hm with h | h | h <;> simp at h
  · rw [get_state_le _ _ ht] at hc hp hb
    have hb1 : (drc_begin dev t).1.leState.connected = false := by
      have h := drc_begin_disconnected dev t
      rwa [get_state_le _ _ ht] at h
    have hb2 := drc_begin_le_paired dev t
    have hb3 := drc_begin_le_bonded dev t
    have hcheck := drc_paired_check_le (drc_begin dev t).1
      ⟨hb1, by rw [hb2]; exact hp, by rw [hb3]; exact hb⟩
    have hmem2 := hcheck.2
    rw [drc_begin_bdaddrType] at hmem2
    refine ⟨?_, ?_, ?_⟩
    · rw [get_state_le _ _ ht, drc_finish_le_paired]
      exact hcheck.1
    · rw [if_neg ht]
      simp only [List.mem_append]
      exact Or.inl (Or.inr hmem2)
    · intro hmem
      simp only [List.mem_append] at hmem
      rcases hmem with (hm | hm) | hm
      · rcases drc_begin_events dev _ _ hm with h | h | h <;> simp at h
      · have hem := drc_paired_check_emission _ hm
        rw [drc_finish_bredr_paired, drc_finish_le_paired]
        exact hem
      · rcases drc_finish_events _ _ _ _ _ hm with h | h | h <;> simp at h

/-- C4 witness: an LE-only device paired but not bonded on LE,
disconnecting on LE. -/
theorem c4_witness :
    (get_state
      { bdaddrType := AddrType.lePublic, le := true,
        leState := { connected := true, paired := true } }
      AddrType.lePublic).connected = true ∧
    (get_state
      (device_remove_connection
        { bdaddrType := AddrType.lePublic, le := true,
          leState := { connected := true, paired := true } }
        AddrType.lePublic 100 45).1
      AddrType.lePublic).paired = false :=
  ⟨rfl,
   (c4_disconnect_unpairs
     { bdaddrType := AddrType.lePublic, le := true,
       leState := { connected := true, paired := true } }
     AddrType.lePublic 100 45 rfl rfl rfl).1⟩

/-- `device_set_paired`: marks the bearer paired; skips the property
signal when the other bearer is already paired; defers it via
`pending_paired` while service discovery on the bearer is
outstanding. -/
def device_set_paired (dev : Device) (t : AddrType) : Device × List Event :=
  if (get_state dev t).paired = true then (dev, [])
  else
    let d1 :=
      if t = AddrType.bredrT then
        { dev with bredrState := { dev.bredrState with paired := true } }
      else
        { dev with leState := { dev.leState with paired := true } }
    let ev1 := [Event.bearerPaired (t = AddrType.bredrT)]
    if d1.bredrState.paired = d1.leState.paired then (d1, ev1)
    else if (get_state d1 t).svcResolved = false then
      ({ d1 with pendingPaired := true }, ev1)
    else (d1, ev1 ++ [Event.propChanged PropName.pairedP])

/-- First stage of `device_svc_resolved`: flip the bearer's
`svc_resolved` and, while connected, refresh the ServicesResolved
observable. -/
def dsr_refresh (dev : Device) (t : AddrType) : Device × List Event :=
  let d1 :=
    if t = AddrType.bredrT then
      { dev with bredrState := { dev.bredrState with svcResolved := true } }
    else
      { dev with leState := { dev.leState with svcResolved := true } }
  if (get_state d1 t).connected = true then device_set_svc_refreshed d1 true
  else (d1, [])

/-- Second stage: drop the EIR UUID cache and emit the deferred Paired
notification when one is pending. -/
def dsr_pending (dev : Device) (t : AddrType) : Device × List Event :=
  let d2 := { dev with eirUuids := [] }
  if d2.pendingPaired = true then
    ({ d2 with pendingPaired := false },
     [Event.bearerPaired (t = AddrType.bredrT),
      Event.propChanged PropName.pairedP])
  else (d2, [])

/-- Third stage: persist a non-temporary device (services too on a
successful LE browse). -/
def dsr_store (dev : Device) (t : AddrType) (err : Int) :
    Device × List Event :=
  if dev.temporary = false then
    let s := store_device_info dev
    (s.1, s.2 ++
      (if t ≠ AddrType.bredrT ∧ err = 0 then [Event.storeServicesEv]
       else []))
  else (dev, [])

/-- Last stage: complete the browse request, replay the queued service
callbacks, reprobe the allowed services. -/
def dsr_tail (dev : Device) : Device × List Event :=
  let r4 :=
    if dev.browse = true then
      ({ dev with browse := false }, [Event.browseComplete])
    else (dev, [])
  let evCb := List.replicate r4.1.svcCallbacks Event.svcCallbackInvoked
  ({ r4.1 with svcCallbacks := 0 },
   r4.2 ++ evCb ++ [Event.updateAllowedServices, Event.resolvedDrivers])

/-- `device_svc_resolved`, the four stages composed. -/
def device_svc_resolved (dev : Device) (t : AddrType) (err : Int) :
    Device × List Event :=
  let r1 := dsr_refresh dev t
  let r2 := dsr_pending r1.1 t
  let r3 := dsr_store r2.1 t err
  let r4 := dsr_tail r3.1
  (r4.1, r1.2 ++ r2.2 ++ r3.2 ++ r4.2)

/-- The refresh stage emits no Paired change and keeps
`pending_paired`. -/
theorem dsr_refresh_facts (dev : Device) (t : AddrType) :
    (dsr_refresh dev t).2.count (Event.propChanged PropName.pairedP) = 0 ∧
    (dsr_refresh dev t).1.pendingPaired = dev.pendingPaired := by
  unfold dsr_refresh device_set_svc_refreshed
  dsimp only
  split_ifs <;> simp_all

/-- The pending stage emits the Paired change exactly when a deferred
pairing was pending, and always clears the flag. -/
theorem dsr_pending_facts (dev : Device) (t : AddrType) :
    ((dsr_pending dev t).2.count (Event.propChanged PropName.pairedP) =
      if dev.pendingPaired = true then 1 else 0) ∧
    (dsr_pending dev t).1.pendingPaired = false := by
  unfold dsr_pending
  dsimp only
  split_ifs with h <;> simp_all

/-- The store stage emits no Paired change and keeps
`pending_paired`. -/
theorem dsr_store_facts (dev : Device) (t : AddrType) (err : Int) :
    (dsr_store dev t err).2.count (Event.propChanged PropName.pairedP) = 0 ∧
    (dsr_store dev t err).1.pendingPaired = dev.pendingPaired := by
  unfold dsr_store store_device_info
  dsimp only
  split_ifs <;> simp_all

/-- The tail stage emits no Paired change and keeps `pending_paired`. -/
theorem dsr_tail_facts (dev : Device) :
    (dsr_tail dev).2.count (Event.propChanged PropName.pairedP) = 0 ∧
    (dsr_tail dev).1.pendingPaired = dev.pendingPaired := by
  unfold dsr_tail
  dsimp only
  split_ifs <;> simp_all [List.count_replicate]

/-- Discovery completion emits the Paired change exactly when a
deferred pairing was pending, and then exactly once. -/
theorem svc_resolved_paired_count (dev : Device) (t : AddrType) (err : Int) :
    (device_svc_resolved dev t err).2.count
        (Event.propChanged PropName.pairedP) =
      (if dev.pendingPaired = true then 1 else 0) := by
  unfold device_svc_resolved
  dsimp only
  rw [List.count_append, List.count_append, List.count_append,
    (dsr_refresh_facts dev t).1,
    (dsr_pending_facts (dsr_refresh dev t).1 t).1,
    (dsr_store_facts (dsr_pending (dsr_refresh dev t).1 t).1 t err).1,
    (dsr_tail_facts (dsr_store (dsr_pending (dsr_refresh dev t).1 t).1 t err).1).1,
    (dsr_refresh_facts dev t).2]
  omega

/-- Discovery completion always leaves `pending_paired` clear. -/
theorem svc_resolved_pending_cleared (dev : Device) (t : AddrType)
    (err : Int) :
    (device_svc_resolved dev t err).1.pendingPaired = false := by
  unfold device_svc_resolved
  dsimp only
  rw [(dsr_tail_facts (dsr_store (dsr_pending (dsr_refresh dev t).1 t).1 t err).1).2,
    (dsr_store_facts (dsr_pending (dsr_refresh dev t).1 t).1 t err).2,
    (dsr_pending_facts (dsr_refresh dev t).1 t).2]

/-- C5: when pairing succeeds on a bearer while neither bearer was
paired and service discovery on that bearer is still outstanding, no
Paired change is emitted at bond time; the notification is deferred via
`pending_paired` and emitted exactly once at discovery completion,
which also clears the deferral flag. -/
theorem c5_paired_deferred (dev : Device) (t : AddrType) (err : Int)
    (hbp : dev.bredrState.paired = false)
    (hlp : dev.leState.paired = false)
    (hs : (get_state dev t).svcResolved = false) :
    Event.propChanged PropName.pairedP ∉ (device_set_paired dev t).2 ∧
    (device_set_paired dev t).1.pendingPaired = true ∧
    (device_svc_resolved (device_set_paired dev t).1 t err).2.count
        (Event.propChanged PropName.pairedP) = 1 ∧
    (device_svc_resolved (device_set_paired dev t).1 t err).1.pendingPaired
      = false := by
  have hp : (get_state dev t).paired = false := by
    by_cases ht : t = AddrType.bredrT
    · rw [ht, get_state_bredr]; exact hbp
    · rw [get_state_le _ _ ht]; exact hlp
  unfold device_set_paired
  rw [if_neg (by rw [hp]; simp)]
  dsimp only
  by_cases ht : t = AddrType.bredrT
  · subst ht
    rw [if_pos (rfl : AddrType.bredrT = AddrType.bredrT)]
    rw [get_state_bredr] at hs
    have hne : ¬(true = dev.leState.paired) := by rw [hlp]; simp
    rw [if_neg hne,
      if_pos (by rw [get_state_bredr]; exact hs)]
    refine ⟨by simp, rfl, ?_, svc_resolved_pending_cleared _ _ _⟩
    rw [svc_resolved_paired_count]
    simp
  · rw [if_neg ht]
    rw [get_state_le _ _ ht] at hs
    have hne : ¬(dev.bredrState.paired = true) := by rw [hbp]; simp
    rw [if_neg hne,
      if_pos (by rw [get_state_le _ _ ht]; exact hs)]
    refine ⟨by simp, rfl, ?_, svc_resolved_pending_cleared _ _ _⟩
    rw [svc_resolved_paired_count]
    simp

/-- C5 witness: an LE device pairing while LE discovery is still
outstanding. -/
theorem c5_witness :
    ({ bdaddrType := AddrType.lePublic, le := true,
       leState := { connected := true } } : Device).leState.paired
        = false ∧
    (device_svc_resolved
      (device_set_paired
        { bdaddrType := AddrType.lePublic, le := true,
          leState := { connected := true } }
        AddrType.lePublic).1
      AddrType.lePublic 0).2.count (Event.propChanged PropName.pairedP)
      = 1 :=
  ⟨rfl,
   (c5_paired_deferred
     { bdaddrType := AddrType.lePublic, le := true,
       leState := { connected := true } }
     AddrType.lePublic 0 rfl rfl rfl).2.2.1⟩

/-- Outcome of `device_confirm_passkey`. -/
inductive ConfirmAction where
  /-- `btd_adapter_confirm_reply(..., FALSE)` -/
  | replyDeny
  /-- `btd_adapter_confirm_reply(..., TRUE)` -/
  | replyAccept
  /-- `agent_request_authorization` -/
  | askAuthorize
  /-- `agent_request_confirmation` -/
  | askConfirm
  /-- `new_auth` failed (auth already pending or no agent), `-EPERM` -/
  | errPerm
deriving DecidableEq

/-- `device_is_paired`. -/
def device_is_paired (dev : Device) (t : AddrType) : Bool :=
  (get_state dev t).paired

/-- Whether `new_auth` succeeds: no pending authentication and an agent
reference available (the bonding's agent, else the default agent). -/
def new_auth_available (dev : Device) : Bool :=
  !dev.authr && ((dev.bonding && dev.bondingAgent) || dev.defaultAgent)

/-- The fall-through of `device_confirm_passkey` after the just-works
re-pairing policy: create the authentication request, then auto-accept
a hinted confirm during bonding, otherwise ask the agent. -/
def confirm_fall (dev : Device) (confirmHint : Bool) : ConfirmAction :=
  if new_auth_available dev = false then ConfirmAction.errPerm
  else if confirmHint = true then
    if dev.bonding = true then ConfirmAction.replyAccept
    else ConfirmAction.askAuthorize
  else ConfirmAction.askConfirm

/-- `device_confirm_passkey`; `jw` is `btd_opts.jw_repairing`. -/
def device_confirm_passkey (dev : Device) (t : AddrType)
    (confirmHint : Bool) (jw : JwPolicy) : ConfirmAction :=
  if confirmHint = true ∧ device_is_paired dev t = true then
    if jw = JwPolicy.never then ConfirmAction.replyDeny
    else if jw = JwPolicy.always then ConfirmAction.replyAccept
    else confirm_fall dev confirmHint
  else confirm_fall dev confirmHint

/-- A device with a bonding in progress and a default agent available. -/
def devC8 : Device :=
  { bdaddrType := AddrType.lePublic
    le := true
    bonding := true
    bondingAgent := true }

/-- C8 counterexample: a numeric-comparison Confirm (no just-works
hint) arriving during a bonding is not auto-accepted: the agent is
prompted for confirmation. -/
theorem c8_counterexample :
    devC8.bonding = true ∧
    device_confirm_passkey devC8 AddrType.lePublic false JwPolicy.ask =
      ConfirmAction.askConfirm ∧
    device_confirm_passkey devC8 AddrType.lePublic false JwPolicy.ask ≠
      ConfirmAction.replyAccept := by
  exact ⟨rfl, by decide, by decide⟩

/-- C8 (amended): only a Confirm carrying the just-works hint is
auto-accepted while a bonding is in progress, and only when the
just-works re-pairing policy did not already answer it and an agent
reference is available; a Confirm without the hint always prompts the
agent for numeric comparison. -/
theorem c8_confirm_auto_accept (dev : Device) (t : AddrType) (jw : JwPolicy)
    (hb : dev.bonding = true) (ha : dev.authr = false)
    (hag : dev.bondingAgent = true ∨ dev.defaultAgent = true)
    (hjw : device_is_paired dev t = false ∨ jw = JwPolicy.ask) :
    device_confirm_passkey dev t true jw = ConfirmAction.replyAccept ∧
    device_confirm_passkey dev t false jw = ConfirmAction.askConfirm := by
  have havail : new_auth_available dev = true := by
    unfold new_auth_available
    rcases hag with h | h <;> simp [ha, hb, h]
  have hfall_t : confirm_fall dev true = ConfirmAction.replyAccept := by
    unfold confirm_fall
    rw [if_neg (by rw [havail]; simp), if_pos rfl, if_pos hb]
  have hfall_f : confirm_fall dev false = ConfirmAction.askConfirm := by
    unfold confirm_fall
    rw [if_neg (by rw [havail]; simp), if_neg (by simp)]
  constructor
  · unfold device_confirm_passkey
    by_cases hp : device_is_paired dev t = true
    · have hjw' : jw = JwPolicy.ask := by
        rcases hjw with h | h
        · rw [hp] at h; cases h
        · exact h
      rw [if_pos ⟨rfl, hp⟩]
      subst hjw'
      rw [if_neg (by simp), if_neg (by simp)]
      exact hfall_t
    · rw [if_neg (by simp [hp])]
      exact hfall_t
  · unfold device_confirm_passkey
    rw [if_neg (by simp)]
    exact hfall_f

/-- C8 witness: the amended theorem at `devC8` (not paired, policy
ask): the hinted confirm is auto-accepted. -/
theorem c8_witness :
    devC8.bonding = true ∧
    device_confirm_passkey devC8 AddrType.lePublic true JwPolicy.ask =
      ConfirmAction.replyAccept :=
  ⟨rfl,
   (c8_confirm_auto_accept devC8 AddrType.lePublic JwPolicy.ask rfl rfl
     (Or.inl rfl) (Or.inl rfl)).1⟩

end BlueZ
